import Mathlib

/-!
Verification of the uinput wrapper (`src/uinput.rs`) of the evdev binding
crate.  The wrapper is a thin layer over the native libevdev uinput API:
every method reads fields of the receiver, issues one call into the native
library, and translates the native return value.  We embed it shallowly:

* the native library is an oracle (`FFI`) giving the return value of each
  raw function for a given raw handle;
* every wrapper operation returns, besides its result, the post-state of
  the receiver and the list of raw calls it issued (`FFICall`), so that
  "issues exactly one write", "no side effect" and "destroy exactly once"
  are statable;
* Rust ownership of the `UInputDevice` value is modelled by an
  `Option UInputDevice` slot: dropping consumes the value, so the slot is
  empty afterwards.
-/

namespace Evdev

/-- One raw call into the native libevdev uinput library (or, for
`closeFd`, into the OS through `std`'s `File` destructor). -/
inductive FFICall where
  | create (devRaw : Nat) (flag : Int)
  | getDevnode (raw : Nat)
  | getSyspath (raw : Nat)
  | getFd (raw : Nat)
  | writeEvent (raw : Nat) (ty : Int) (code : Int) (value : Int)
  | destroy (raw : Nat)
  | closeFd (fd : Int)
  deriving DecidableEq, Repr

/-- Oracle for the native library: the value each raw function returns when
called on a given raw handle.  String-returning getters are modelled as
already translated from C pointers: a null pointer is `none`. -/
structure FFI where
  createResult : Nat → Int
  createdPtr : Nat
  devnodeStr : Nat → Option String
  syspathStr : Nat → Option String
  fdResult : Nat → Int
  writeResult : Nat → Int → Int → Int → Int

/-- `raw::LIBEVDEV_UINPUT_OPEN_MANAGED`: the distinguished mode marker
(from the raw bindings of the crate; value `-2` in libevdev) telling the
native library to open and manage `/dev/uinput` itself. -/
def LIBEVDEV_UINPUT_OPEN_MANAGED : Int := -2

/-- The source libevdev device (`device::Device`): for this wrapper only its
raw pointer is read. -/
structure Device where
  raw : Nat
  deriving DecidableEq, Repr

/-- Modelled from the spec: `InputEvent`'s event code, declared outside
`src`.  Per spec §3 an `InputEvent` is a value type
`{ event_code : (Type, Code), value : i32 }`, so the code is a pair of the
event type and the event code number. -/
structure EventCode where
  ty : Nat
  code : Nat
  deriving DecidableEq, Repr

/-- Modelled from the spec: `InputEvent` (declared outside `src`) is the
value type `{ event_code : (Type, Code), value : i32 }` of spec §3. -/
structure InputEvent where
  event_code : EventCode
  value : Int
  deriving DecidableEq, Repr

/-- Modelled from the spec: `util::event_code_to_int` is declared outside
`src`.  Per spec §4.2 the writer "translates the event into the three
kernel-expected integers (type, code, value)", so the helper returns the
event type and code of the pair as integers. -/
def event_code_to_int (ec : EventCode) : Int × Int :=
  ((ec.ty : Int), (ec.code : Int))

/-- `nix::errno::Errno` as used by the wrapper: it carries the positive OS
error number handed to `Errno::from_i32`. -/
structure Errno where
  code : Int
  deriving DecidableEq, Repr

/-- `Errno::from_i32` of the external nix crate: the variant standing for
the given error number. -/
def Errno.from_i32 (i : Int) : Errno := ⟨i⟩

/-- The wrapper struct `UInputDevice { raw : *mut libevdev_uinput }`. -/
structure UInputDevice where
  raw : Nat
  deriving DecidableEq, Repr

/-- Result of a method called on an `&self` receiver: the return value, the
receiver afterwards, and the raw calls issued. -/
structure MethodOut (α : Type) where
  ret : α
  post : UInputDevice
  calls : List FFICall
  deriving Repr

/-- Model of `std::fs::File` as produced by `File::from_raw_fd`: per the
standard library's contract the constructed `File` assumes ownership of the
descriptor and closes it when dropped. -/
structure File where
  fd : Int
  owns : Bool
  deriving DecidableEq, Repr

/-- `File::from_raw_fd`: wraps the raw descriptor in an owning `File`. -/
def File.from_raw_fd (fd : Int) : File := { fd := fd, owns := true }

/-- Dropping a `File`: an owning `File` closes its descriptor. -/
def File.drop (f : File) : List FFICall :=
  if f.owns then [FFICall.closeFd f.fd] else []

/-- `UInputDevice::create_from_device` (src/uinput.rs:20-30): calls
`libevdev_uinput_create_from_device(device.raw, LIBEVDEV_UINPUT_OPEN_MANAGED,
&mut ptr)` once; a zero result yields `Ok(UInputDevice { raw: ptr })`, any
other result yields `Err(Errno::from_i32(-result))`. -/
def UInputDevice.create_from_device (ffi : FFI) (device : Device) :
    Except Errno UInputDevice × List FFICall :=
  let result := ffi.createResult device.raw
  ((if result = 0 then Except.ok { raw := ffi.createdPtr }
    else Except.error (Errno.from_i32 (-result))),
   [FFICall.create device.raw LIBEVDEV_UINPUT_OPEN_MANAGED])

/-- Modelled from the spec: `UInputDevice::devnode` is generated by the
`string_getter!` macro declared outside `src`; per spec §4.3 it is a
read-only query calling the raw getter `libevdev_uinput_get_devnode` on
`self.raw` and returning `None` rather than erroring when the kernel cannot
supply the string (null pointer).  The receiver is `&self`: unchanged. -/
def UInputDevice.devnode (ffi : FFI) (self : UInputDevice) :
    MethodOut (Option String) :=
  { ret := ffi.devnodeStr self.raw
    post := self
    calls := [FFICall.getDevnode self.raw] }

/-- Modelled from the spec: `UInputDevice::syspath`, generated by the same
`string_getter!` macro over `libevdev_uinput_get_syspath` (spec §4.3). -/
def UInputDevice.syspath (ffi : FFI) (self : UInputDevice) :
    MethodOut (Option String) :=
  { ret := ffi.syspathStr self.raw
    post := self
    calls := [FFICall.getSyspath self.raw] }

/-- `UInputDevice::fd` (src/uinput.rs:52-65): calls
`libevdev_uinput_get_fd(self.raw)`; a zero result yields `None`, any other
result — negative error values included — is wrapped by
`File::from_raw_fd` and returned as `Some`. -/
def UInputDevice.fd (ffi : FFI) (self : UInputDevice) :
    MethodOut (Option File) :=
  let result := ffi.fdResult self.raw
  { ret := if result = 0 then none else some (File.from_raw_fd result)
    post := self
    calls := [FFICall.getFd self.raw] }

/-- `UInputDevice::write_event` (src/uinput.rs:72-84): translates the event
code through `event_code_to_int`, takes the value, and calls
`libevdev_uinput_write_event(self.raw, ev_type, ev_code, ev_value)` once; a
zero result yields `Ok(())`, any other yields `Err(Errno::from_i32(-result))`. -/
def UInputDevice.write_event (ffi : FFI) (self : UInputDevice)
    (event : InputEvent) : MethodOut (Except Errno Unit) :=
  let p := event_code_to_int event.event_code
  let ev_type := p.1
  let ev_code := p.2
  let ev_value := event.value
  let result := ffi.writeResult self.raw ev_type ev_code ev_value
  { ret := if result = 0 then Except.ok ()
           else Except.error (Errno.from_i32 (-result))
    post := self
    calls := [FFICall.writeEvent self.raw ev_type ev_code ev_value] }

/-- `impl Drop for UInputDevice` (src/uinput.rs:87-93): unconditionally
issues `libevdev_uinput_destroy(self.raw)`. -/
def UInputDevice.dropDevice (self : UInputDevice) : List FFICall :=
  [FFICall.destroy self.raw]

/-- Rust ownership of the device value: while it exists the slot is
`some d` (state `Created`); dropping consumes it (state `Destroyed`), and a
release of an already-empty slot has nothing to run and issues no call. -/
def releaseSlot : Option UInputDevice → Option UInputDevice × List FFICall
  | some d => (none, d.dropDevice)
  | none => (none, [])

/-- `n` successive release attempts on a slot, with the concatenated trace. -/
def releaseN : Nat → Option UInputDevice → Option UInputDevice × List FFICall
  | 0, s => (s, [])
  | n + 1, s =>
    let r := releaseSlot s
    let r' := releaseN n r.1
    (r'.1, r.2 ++ r'.2)

/-- Whether a raw call is the kernel destroy call. -/
def FFICall.isDestroy : FFICall → Bool
  | .destroy _ => true
  | _ => false

/-- Whether a raw call writes an event of the synchronization type
(`EV_SYN`, numeric type 0). -/
def FFICall.isSynWrite : FFICall → Bool
  | .writeEvent _ ty _ _ => ty = 0
  | _ => false

/-- Whether an `Except` result is `ok`. -/
def exceptIsOk {ε α : Type} : Except ε α → Bool
  | .ok _ => true
  | .error _ => false

/-- Documented coupling of the native library (doc comment at
src/uinput.rs:34 and spec §4.3): devnode resolution relies on a valid
syspath, so when the native syspath getter yields null the native devnode
getter yields null too. -/
def FFI.devnodeCoupled (ffi : FFI) : Prop :=
  ∀ raw : Nat, ffi.syspathStr raw = none → ffi.devnodeStr raw = none

/-- A fixed concrete oracle used by the witnesses: creation succeeds,
both paths resolve, the stored descriptor is 5, writes succeed. -/
def ffiOk : FFI :=
  { createResult := fun _ => 0
    createdPtr := 7
    devnodeStr := fun _ => some "/dev/input/event9"
    syspathStr := fun _ => some "/sys/devices/virtual/input/input123"
    fdResult := fun _ => 5
    writeResult := fun _ _ _ _ => 0 }

/-- A fixed concrete oracle where every native call fails: creation returns
`-13`, both paths are null, the fd getter returns `-9`, writes return
`-19`. -/
def ffiErr : FFI :=
  { createResult := fun _ => -13
    createdPtr := 0
    devnodeStr := fun _ => none
    syspathStr := fun _ => none
    fdResult := fun _ => -9
    writeResult := fun _ _ _ _ => -19 }

/-- Helper: releasing an already-empty slot any number of times does
nothing and issues no raw call. -/
theorem releaseN_none (n : Nat) : releaseN n none = (none, []) := by
  induction n with
  | zero => rfl
  | succ n ih => simp [releaseN, releaseSlot, ih]

/-- Helper: after at least one release attempt the slot is empty. -/
theorem releaseN_some_none (d : UInputDevice) (n : Nat) (h : 1 ≤ n) :
    (releaseN n (some d)).1 = none := by
  obtain ⟨m, rfl⟩ : ∃ m, n = m + 1 := ⟨n - 1, by omega⟩
  simp [releaseN, releaseSlot, releaseN_none]

/-- C1: for every device in state `Created` and every `InputEvent` e,
`write_event(device, e)` issues exactly one underlying write carrying
exactly e's event type, event code, and value, and never synthesizes a
synchronization event on the caller's behalf (the trace holds no `EV_SYN`
write when e itself is not one). -/
theorem write_event_exactly_one_write (ffi : FFI) (d : UInputDevice)
    (e : InputEvent) :
    (UInputDevice.write_event ffi d e).calls =
      [FFICall.writeEvent d.raw ((e.event_code.ty : Int))
        ((e.event_code.code : Int)) e.value] ∧
    ((UInputDevice.write_event ffi d e).calls).length = 1 ∧
    (e.event_code.ty ≠ 0 →
      ((UInputDevice.write_event ffi d e).calls).countP
        (fun c => c.isSynWrite) = 0) := by
  refine ⟨rfl, rfl, fun h => ?_⟩
  simp [UInputDevice.write_event, event_code_to_int, FFICall.isSynWrite,
    List.countP_cons, h]

/-- Witness for C1 at a concrete relative-axis event (type 2, code 0,
value 5): the single write issued is not a synchronization write. -/
theorem write_event_exactly_one_write_witness :
    ((UInputDevice.write_event ffiOk ⟨7⟩ ⟨⟨2, 0⟩, 5⟩).calls).countP
      (fun c => c.isSynWrite) = 0 :=
  (write_event_exactly_one_write ffiOk ⟨7⟩ ⟨⟨2, 0⟩, 5⟩).2.2 (by decide)

/-- C2: `create_from_device` returns `Ok` with a constructed device exactly
when the native result is 0 and an error exactly otherwise — no third
outcome — and it issues exactly the single managed native create call, so
the wrapper itself opens no intermediate handle that could leak on the
error path. -/
theorem create_from_device_total (ffi : FFI) (device : Device) :
    ((∃ dev, (UInputDevice.create_from_device ffi device).1 =
        Except.ok dev) ↔ ffi.createResult device.raw = 0) ∧
    ((∃ er, (UInputDevice.create_from_device ffi device).1 =
        Except.error er) ↔ ¬ ffi.createResult device.raw = 0) ∧
    (UInputDevice.create_from_device ffi device).2 =
      [FFICall.create device.raw LIBEVDEV_UINPUT_OPEN_MANAGED] := by
  unfold UInputDevice.create_from_device
  by_cases h : ffi.createResult device.raw = 0 <;> simp [h]

/-- Witness for C2: with the all-succeeding oracle, creation returns `Ok`
with a device. -/
theorem create_from_device_total_witness :
    ∃ dev, (UInputDevice.create_from_device ffiOk ⟨3⟩).1 = Except.ok dev :=
  (create_from_device_total ffiOk ⟨3⟩).1.mpr rfl

/-- C3: for both fallible operations, a nonzero native return code r yields
an error built exactly as `Errno::from_i32(-r)` (the positive counterpart
of the native negative code), and the operation returns `Ok` exactly when
r = 0. -/
theorem errno_negated_from_native (ffi : FFI) (device : Device)
    (d : UInputDevice) (e : InputEvent) :
    (∀ r : Int, ffi.createResult device.raw = r → ¬ r = 0 →
      (UInputDevice.create_from_device ffi device).1 =
        Except.error (Errno.from_i32 (-r))) ∧
    (exceptIsOk (UInputDevice.create_from_device ffi device).1 = true ↔
      ffi.createResult device.raw = 0) ∧
    (∀ r : Int,
      ffi.writeResult d.raw (event_code_to_int e.event_code).1
        (event_code_to_int e.event_code).2 e.value = r → ¬ r = 0 →
      (UInputDevice.write_event ffi d e).ret =
        Except.error (Errno.from_i32 (-r))) ∧
    (exceptIsOk (UInputDevice.write_event ffi d e).ret = true ↔
      ffi.writeResult d.raw (event_code_to_int e.event_code).1
        (event_code_to_int e.event_code).2 e.value = 0) := by
  refine ⟨fun r hr h0 => ?_, ?_, fun r hr h0 => ?_, ?_⟩
  · simp [UInputDevice.create_from_device, hr, h0]
  · by_cases h : ffi.createResult device.raw = 0 <;>
      simp [UInputDevice.create_from_device, exceptIsOk, h]
  · simp [UInputDevice.write_event, hr, h0]
  · by_cases h : ffi.writeResult d.raw (event_code_to_int e.event_code).1
        (event_code_to_int e.event_code).2 e.value = 0 <;>
      simp [UInputDevice.write_event, exceptIsOk, h]

/-- Witness for C3: with the all-failing oracle (native create result -13,
native write result -19), creation fails with errno 13 and a write fails
with errno 19. -/
theorem errno_negated_from_native_witness :
    (UInputDevice.create_from_device ffiErr ⟨3⟩).1 =
      Except.error (Errno.from_i32 (-(-13))) ∧
    (UInputDevice.write_event ffiErr ⟨7⟩ ⟨⟨2, 0⟩, 5⟩).ret =
      Except.error (Errno.from_i32 (-(-19))) :=
  ⟨(errno_negated_from_native ffiErr ⟨3⟩ ⟨7⟩ ⟨⟨2, 0⟩, 5⟩).1 (-13) rfl
      (by decide),
   (errno_negated_from_native ffiErr ⟨3⟩ ⟨7⟩ ⟨⟨2, 0⟩, 5⟩).2.2.1 (-19) rfl
      (by decide)⟩

/-- C4: over a device's whole lifetime, any number n ≥ 1 of release
attempts starting from the live (`Created`) value issues the kernel destroy
call exactly once, and the value no longer exists afterwards: subsequent
attempts are no-ops. -/
theorem destroy_exactly_once (d : UInputDevice) (n : Nat) (h : 1 ≤ n) :
    ((releaseN n (some d)).2.countP (fun c => c.isDestroy)) = 1 ∧
    (releaseN n (some d)).1 = none := by
  obtain ⟨m, rfl⟩ : ∃ m, n = m + 1 := ⟨n - 1, by omega⟩
  simp [releaseN, releaseSlot, UInputDevice.dropDevice, releaseN_none,
    List.countP_cons, FFICall.isDestroy]

/-- Witness for C4: three successive release attempts on a concrete device
issue exactly one destroy call. -/
theorem destroy_exactly_once_witness :
    ((releaseN 3 (some ⟨7⟩)).2.countP (fun c => c.isDestroy)) = 1 :=
  (destroy_exactly_once ⟨7⟩ 3 (by decide)).1

/-- C5 (failing input, device whose stored descriptor is 5): `fd` wraps the
shared raw descriptor with `File::from_raw_fd`, so the returned `File` OWNS
the descriptor — dropping it closes descriptor 5, which the device still
uses.  Ownership is transferred, contrary to the claim, and a double-close
hazard follows. -/
theorem fd_returns_owning_file :
    ∃ f : File, (UInputDevice.fd ffiOk ⟨7⟩).ret = some f ∧ f.owns = true ∧
      f.fd = ffiOk.fdResult 7 ∧ File.drop f = [FFICall.closeFd 5] :=
  ⟨File.from_raw_fd 5, rfl, rfl, rfl, rfl⟩

/-- C6: when the native library obeys its documented coupling (devnode
resolution relies on a valid syspath), `syspath` returning `none` implies
`devnode` returns `none`. -/
theorem syspath_none_implies_devnode_none (ffi : FFI)
    (hc : ffi.devnodeCoupled) (d : UInputDevice)
    (hs : (UInputDevice.syspath ffi d).ret = none) :
    (UInputDevice.devnode ffi d).ret = none :=
  hc d.raw hs

/-- Witness for C6: the all-failing oracle is coupled (both getters return
null), and indeed both queries return `none`. -/
theorem syspath_none_implies_devnode_none_witness :
    (UInputDevice.syspath ffiErr ⟨7⟩).ret = none ∧
    (UInputDevice.devnode ffiErr ⟨7⟩).ret = none :=
  ⟨rfl, syspath_none_implies_devnode_none ffiErr (fun _ _ => rfl) ⟨7⟩ rfl⟩

/-- C7 (counterexample): destroying the device with raw handle 7 issues the
kernel destroy, yet the writer body run on that same raw handle afterwards
returns `Ok ()` — it does not fail with a NotOpen error, because the
wrapper keeps no liveness state and its error type (`Errno`) has no
NotOpen notion: protection is by ownership, not by a runtime check. -/
theorem post_destroy_write_not_notopen :
    (releaseN 1 (some ⟨7⟩)).2 = [FFICall.destroy 7] ∧
    (UInputDevice.write_event ffiOk ⟨7⟩ ⟨⟨2, 0⟩, 5⟩).ret = Except.ok () :=
  ⟨rfl, rfl⟩

/-- C7 (amended): after any release sequence the device value no longer
exists — no operation can be invoked on it at all (Rust ownership makes
use-after-destroy unrepresentable) — and every error an operation can ever
return is an OS errno derived from the native result, never a NotOpen
value. -/
theorem post_destroy_unrepresentable (d : UInputDevice) (n : Nat)
    (h : 1 ≤ n) (ffi : FFI) (d' : UInputDevice) (e : InputEvent) :
    (releaseN n (some d)).1 = none ∧
    (∀ er : Errno, (UInputDevice.write_event ffi d' e).ret =
        Except.error er →
      er = Errno.from_i32
        (-(ffi.writeResult d'.raw (event_code_to_int e.event_code).1
            (event_code_to_int e.event_code).2 e.value))) := by
  constructor
  · exact releaseN_some_none d n h
  · intro er her
    by_cases h0 : ffi.writeResult d'.raw (event_code_to_int e.event_code).1
        (event_code_to_int e.event_code).2 e.value = 0
    · simp [UInputDevice.write_event, h0] at her
    · simp [UInputDevice.write_event, h0] at her
      simp [← her, Errno.from_i32]

/-- Witness for C7 (amended): one release empties the slot, and the
all-failing oracle's write error is errno 19. -/
theorem post_destroy_unrepresentable_witness :
    (releaseN 1 (some ⟨7⟩)).1 = none ∧
    Errno.from_i32 19 = Errno.from_i32
      (-(ffiErr.writeResult 7 (event_code_to_int ⟨2, 0⟩).1
          (event_code_to_int ⟨2, 0⟩).2 5)) :=
  ⟨(post_destroy_unrepresentable ⟨7⟩ 1 (by decide) ffiErr ⟨7⟩
      ⟨⟨2, 0⟩, 5⟩).1,
   (post_destroy_unrepresentable ⟨7⟩ 1 (by decide) ffiErr ⟨7⟩
      ⟨⟨2, 0⟩, 5⟩).2 (Errno.from_i32 19) rfl⟩

/-- C8: `devnode` and `syspath` are read-only idempotent queries: the
receiver (hence its only attribute, the raw handle) is unchanged, and a
repeated call — also interleaved with an `fd` query — returns the same
result. -/
theorem queries_readonly_idempotent (ffi : FFI) (d : UInputDevice) :
    (UInputDevice.devnode ffi d).post = d ∧
    (UInputDevice.syspath ffi d).post = d ∧
    (UInputDevice.devnode ffi ((UInputDevice.devnode ffi d).post)).ret =
      (UInputDevice.devnode ffi d).ret ∧
    (UInputDevice.syspath ffi ((UInputDevice.syspath ffi d).post)).ret =
      (UInputDevice.syspath ffi d).ret ∧
    (UInputDevice.fd ffi ((UInputDevice.devnode ffi d).post)).ret =
      (UInputDevice.fd ffi d).ret :=
  ⟨rfl, rfl, rfl, rfl, rfl⟩

/-- C9 (counterexample): at a concrete source device, the creation trace
carries the fixed managed-open marker, and it is the same whatever the
environment — there is no caller-supplied override of the kernel control
node anywhere in the creation path. -/
theorem create_hardcodes_managed_open :
    (UInputDevice.create_from_device ffiOk ⟨3⟩).2 =
      [FFICall.create 3 LIBEVDEV_UINPUT_OPEN_MANAGED] ∧
    (UInputDevice.create_from_device ffiErr ⟨3⟩).2 =
      (UInputDevice.create_from_device ffiOk ⟨3⟩).2 :=
  ⟨rfl, rfl⟩

/-- C9 (amended): `create_from_device` exposes no caller-supplied
control-node override: for every oracle and every source device it issues
the native create with the fixed `LIBEVDEV_UINPUT_OPEN_MANAGED` mode, the
native library opening the system node itself. -/
theorem create_always_managed (ffi : FFI) (device : Device) :
    (UInputDevice.create_from_device ffi device).2 =
      [FFICall.create device.raw LIBEVDEV_UINPUT_OPEN_MANAGED] := rfl

/-- C10: `fd` returns `none` exactly when the native get-fd call returns 0;
every other return value, negative error values included, is wrapped by
`File::from_raw_fd` and returned as `some`. -/
theorem fd_none_iff_zero (ffi : FFI) (d : UInputDevice) :
    ((UInputDevice.fd ffi d).ret = none ↔ ffi.fdResult d.raw = 0) ∧
    (∀ r : Int, ffi.fdResult d.raw = r → ¬ r = 0 →
      (UInputDevice.fd ffi d).ret = some (File.from_raw_fd r)) := by
  constructor
  · by_cases h : ffi.fdResult d.raw = 0 <;> simp [UInputDevice.fd, h]
  · intro r hr h0
    simp [UInputDevice.fd, hr, h0]

/-- Witness for C10: with the all-failing oracle (native get-fd result -9,
a negative error value), `fd` still returns `some` of the wrapped value. -/
theorem fd_none_iff_zero_witness :
    (UInputDevice.fd ffiErr ⟨7⟩).ret = some (File.from_raw_fd (-9)) :=
  (fd_none_iff_zero ffiErr ⟨7⟩).2 (-9) rfl (by decide)

end Evdev
